import Mathlib

/-!
Verification of the data-ingestion subsystem of the quant-finance repository:
a shallow embedding in Lean 4 of the retry strategy, token-bucket rate
limiter, DuckDB-backed cache, cache-key builders, and the cache-or-fetch
orchestrators, with theorems checking the behavioural claims made about them.

Modelling conventions:
- Python floats are modelled as rationals (all constants in play are exactly
  representable); wall-clock timestamps are rationals.
- Python exceptions become an inductive type carrying the message string;
  fallible operations return `Except`.
- Pandas DataFrames are modelled by their column-name list and row list of
  rational cells, which is all the embedded code inspects.
- Logging calls are side effects with no bearing on results and are dropped.
-/

/-- Python's substring test `pat in s` (used by `should_retry` and by the
message-content claims). -/
def pyIn (pat s : String) : Bool := decide (List.IsInfix pat.data s.data)

/-- Python truthiness of an optional string argument: `None` and the empty
string are falsy (used by `DuckDBCache.invalidate`'s `if cache_key and table`). -/
def pyTruthy : Option String → Bool
  | none => false
  | some s => s ≠ ""

/-- The exception taxonomy of `src/data_ingestion/exceptions.py`, flattened to
an inductive type.  Each constructor carries the message (`str(e)`).
`generic` stands for any exception outside the package hierarchy, and
`cacheError` for `CacheError`. -/
inductive PyExc where
  | validationError (msg : String)
  | symbolNotFoundError (msg : String)
  | rateLimitError (msg : String)
  | fetchError (msg : String)
  | cacheError (msg : String)
  | generic (msg : String)
  deriving DecidableEq, Repr

/-- `str(exception)` for the modelled exceptions. -/
def PyExc.msg : PyExc → String
  | .validationError m => m
  | .symbolNotFoundError m => m
  | .rateLimitError m => m
  | .fetchError m => m
  | .cacheError m => m
  | .generic m => m

/-- `isinstance(e, ValidationError)`. -/
def PyExc.isinstanceValidationError : PyExc → Bool
  | .validationError _ => true
  | _ => false

/-- `isinstance(e, SymbolNotFoundError)`. -/
def PyExc.isinstanceSymbolNotFoundError : PyExc → Bool
  | .symbolNotFoundError _ => true
  | _ => false

/-- `isinstance(e, RateLimitError)`. -/
def PyExc.isinstanceRateLimitError : PyExc → Bool
  | .rateLimitError _ => true
  | _ => false

/-- `isinstance(e, FetchError)`: in the source hierarchy `RateLimitError` and
`SymbolNotFoundError` are subclasses of `FetchError`. -/
def PyExc.isinstanceFetchError : PyExc → Bool
  | .fetchError _ => true
  | .rateLimitError _ => true
  | .symbolNotFoundError _ => true
  | _ => false

/-- The `retryable_errors` message patterns of
`ExponentialBackoffRetry.should_retry`. -/
def retryableErrorPatterns : List String :=
  ["timeout", "connection", "network", "temporary", "unavailable",
   "500", "502", "503", "504"]

/-- `ExponentialBackoffRetry` configuration attributes
(`src/data_ingestion/utils/retry.py`). -/
structure ExponentialBackoffRetry where
  maxRetries : ℕ
  baseDelay : ℚ
  maxDelay : ℚ
  exponentialBase : ℚ
  deriving Repr

/-- `ExponentialBackoffRetry.__init__` with its four guard clauses.
A non-negative `max_retries` is stored as a natural number. -/
def mkExponentialBackoffRetry (maxRetries : ℤ) (baseDelay maxDelay exponentialBase : ℚ) :
    Except String ExponentialBackoffRetry :=
  if maxRetries < 0 then .error "max_retries must be non-negative"
  else if baseDelay ≤ 0 then .error "base_delay must be positive"
  else if maxDelay ≤ 0 then .error "max_delay must be positive"
  else if exponentialBase ≤ 1 then .error "exponential_base must be greater than 1"
  else .ok ⟨maxRetries.toNat, baseDelay, maxDelay, exponentialBase⟩

/-- `ExponentialBackoffRetry.should_retry`, mirroring the source's isinstance
chain followed by the lowercase substring scan. -/
def ExponentialBackoffRetry.shouldRetry (_r : ExponentialBackoffRetry) (e : PyExc) : Bool :=
  if e.isinstanceValidationError || e.isinstanceSymbolNotFoundError then false
  else if e.isinstanceRateLimitError then true
  else if e.isinstanceFetchError then true
  else retryableErrorPatterns.any (fun p => pyIn p (String.toLower e.msg))

/-- `ExponentialBackoffRetry.calculate_delay`:
`min(base_delay * exponential_base ** attempt, max_delay)`. -/
def ExponentialBackoffRetry.calculateDelay (r : ExponentialBackoffRetry) (attempt : ℕ) : ℚ :=
  min (r.baseDelay * r.exponentialBase ^ attempt) r.maxDelay

/-- Loop body of `ExponentialBackoffRetry.execute`.  `attempts i` is the
outcome of the `i`-th invocation of the wrapped operation; `remaining`
counts the retries still allowed (`max_retries - i`).  Returns the final
outcome together with the number of invocations performed.  The inter-attempt
`time.sleep(delay)` only delays and is dropped. -/
def ExponentialBackoffRetry.execGo {α : Type} (r : ExponentialBackoffRetry)
    (attempts : ℕ → Except PyExc α) : ℕ → ℕ → Except PyExc α × ℕ
  | i, 0 =>
    match attempts i with
    | .ok v => (.ok v, i + 1)
    | .error e => (.error e, i + 1)
  | i, rem + 1 =>
    match attempts i with
    | .ok v => (.ok v, i + 1)
    | .error e =>
      if r.shouldRetry e then ExponentialBackoffRetry.execGo r attempts (i + 1) rem
      else (.error e, i + 1)

/-- `ExponentialBackoffRetry.execute`: run the operation, retrying while the
error is retryable and retries remain; the failing branch re-raises the
caught exception (`raise`) unchanged. -/
def ExponentialBackoffRetry.execute {α : Type} (r : ExponentialBackoffRetry)
    (attempts : ℕ → Except PyExc α) : Except PyExc α × ℕ :=
  r.execGo attempts 0 r.maxRetries

/-- `TokenBucketLimiter` state (`src/data_ingestion/utils/rate_limiter.py`).
`bucket_size` is an `int` in the source; it is held as a rational because it
only ever enters rational arithmetic (`min`, comparisons). -/
structure TokenBucketLimiter where
  tokensPerSecond : ℚ
  bucketSize : ℚ
  tokens : ℚ
  lastUpdate : ℚ
  deriving Repr

/-- `TokenBucketLimiter.__init__` with its two guard clauses; the bucket
starts full and `last_update` is the construction time. -/
def mkTokenBucketLimiter (tokensPerSecond : ℚ) (bucketSize : ℤ) (now : ℚ) :
    Except String TokenBucketLimiter :=
  if tokensPerSecond ≤ 0 then .error "tokens_per_second must be positive"
  else if bucketSize ≤ 0 then .error "bucket_size must be positive"
  else .ok ⟨tokensPerSecond, (bucketSize : ℚ), (bucketSize : ℚ), now⟩

/-- `TokenBucketLimiter._refill_tokens`:
`tokens = min(bucket_size, tokens + elapsed * tokens_per_second)`. -/
def TokenBucketLimiter.refillTokens (st : TokenBucketLimiter) (now : ℚ) : TokenBucketLimiter :=
  let elapsed := now - st.lastUpdate
  { st with
    tokens := min st.bucketSize (st.tokens + elapsed * st.tokensPerSecond)
    lastUpdate := now }

/-- `TokenBucketLimiter.acquire` specialized to `blocking=False`: the loop
body runs once — refill, debit-and-succeed when the balance covers the
request, otherwise fail immediately.  The `tokens <= 0` guard raises
`ValueError` as in the source. -/
def TokenBucketLimiter.acquireNonBlocking (st : TokenBucketLimiter) (k : ℤ) (now : ℚ) :
    Except String (Bool × TokenBucketLimiter) :=
  if k ≤ 0 then .error "tokens must be positive"
  else
    let st1 := st.refillTokens now
    if (k : ℚ) ≤ st1.tokens then .ok (true, { st1 with tokens := st1.tokens - (k : ℚ) })
    else .ok (false, st1)

/-- `TokenBucketLimiter.reset`: refill to capacity and stamp the time. -/
def TokenBucketLimiter.reset (st : TokenBucketLimiter) (now : ℚ) : TokenBucketLimiter :=
  { st with tokens := st.bucketSize, lastUpdate := now }

/-- `TokenBucketLimiter.get_available_tokens`: refill, then report the
balance (returning the refilled state as well, since the refill mutates). -/
def TokenBucketLimiter.getAvailableTokens (st : TokenBucketLimiter) (now : ℚ) :
    ℚ × TokenBucketLimiter :=
  let st1 := st.refillTokens now
  (st1.tokens, st1)

/-- Run `n` consecutive `acquire(1, blocking=False)` calls at one instant,
returning the final state when every call succeeded. -/
def TokenBucketLimiter.acquireAllOk : TokenBucketLimiter → ℚ → ℕ → Option TokenBucketLimiter
  | st, _, 0 => some st
  | st, now, n + 1 =>
    match st.acquireNonBlocking 1 now with
    | .ok (true, st1) => TokenBucketLimiter.acquireAllOk st1 now n
    | _ => none

/-- The three cache tables of `DuckDBCache._TABLE_SCHEMAS`. -/
def knownCacheTables : List String := ["equity_cache", "options_cache", "fixed_income_cache"]

/-- One row of a cache table: key, table namespace, the per-table metadata
column values, the pickled payload, and the two timestamps. -/
structure CacheEntry (α : Type) where
  cacheKey : String
  table : String
  meta : List (Option String)
  payload : α
  createdAt : ℚ
  expiresAt : ℚ

/-- The cache store across all tables. -/
abbrev CacheState (α : Type) := List (CacheEntry α)

/-- `metadata.get(k)` on the keyword-argument dictionary. -/
def metadataGet (metadata : List (String × Option String)) (k : String) : Option String :=
  (metadata.find? (fun p => p.1 == k)).bind (·.2)

/-- The metadata column values `DuckDBCache.set` binds for each table's
insert statement. -/
def buildCacheMeta (table : String) (metadata : List (String × Option String)) :
    List (Option String) :=
  if table == "equity_cache" then
    [metadataGet metadata "symbol", metadataGet metadata "start_date",
     metadataGet metadata "end_date", metadataGet metadata "interval"]
  else if table == "options_cache" then
    [metadataGet metadata "symbol", metadataGet metadata "expiration"]
  else
    [metadataGet metadata "instrument", metadataGet metadata "maturity",
     metadataGet metadata "start_date", metadataGet metadata "end_date"]

/-- `DuckDBCache.get`: an unknown table logs a warning and returns `None`;
otherwise the entry is returned only when `expires_at > now`.  The `except`
wrapper that converts storage faults into `CacheError` is represented by the
`Except` result type; in this pure model the store itself never faults. -/
def duckdbCacheGet {α : Type} (s : CacheState α) (cacheKey table : String) (now : ℚ) :
    Except PyExc (Option α) :=
  if ¬ knownCacheTables.contains table then .ok none
  else
    .ok ((s.find? (fun e =>
      decide (e.table = table ∧ e.cacheKey = cacheKey ∧ now < e.expiresAt))).map (·.payload))

/-- `DuckDBCache.set`: reject unknown tables (the `CacheError` raised inside
the `try` is re-wrapped by the handler into
`Failed to write to cache: ...`), otherwise upsert the entry with
`expires_at = now + ttl_seconds` and the per-table metadata. -/
def duckdbCacheSet {α : Type} (s : CacheState α) (cacheKey : String) (data : α)
    (table : String) (ttlSeconds : ℤ) (metadata : List (String × Option String))
    (now : ℚ) : Except PyExc (CacheState α) :=
  if ¬ knownCacheTables.contains table then
    .error (.cacheError ("Failed to write to cache: Unknown cache table: " ++ table))
  else
    let entry : CacheEntry α :=
      ⟨cacheKey, table, buildCacheMeta table metadata, data, now, now + (ttlSeconds : ℚ)⟩
    .ok (entry :: s.filter (fun e => !(decide (e.table = table ∧ e.cacheKey = cacheKey))))

/-- `DuckDBCache.invalidate`, with the source's Python-truthiness tests
(`if cache_key and table` / `elif table`).  In the keyed branch the table
name is interpolated unchecked into the SQL, so an unknown table surfaces as
a storage fault wrapped into a `CacheError` (message abstracted); the
table-only branch checks the schema map itself; the final branch clears
every known table. -/
def duckdbCacheInvalidate {α : Type} (s : CacheState α)
    (cacheKey table : Option String) : Except PyExc (CacheState α) :=
  if pyTruthy cacheKey && pyTruthy table then
    let k := cacheKey.getD ""
    let t := table.getD ""
    if knownCacheTables.contains t then
      .ok (s.filter (fun e => !(decide (e.table = t ∧ e.cacheKey = k))))
    else
      .error (.cacheError ("Failed to invalidate cache: no such table: " ++ t))
  else if pyTruthy table then
    let t := table.getD ""
    if knownCacheTables.contains t then
      .ok (s.filter (fun e => !(e.table == t)))
    else
      .error (.cacheError ("Failed to invalidate cache: Unknown cache table: " ++ t))
  else
    .ok (s.filter (fun e => !(knownCacheTables.contains e.table)))

/-- A pandas DataFrame, reduced to what the embedded code inspects: the
column names and the grid of (rational) cell values. -/
structure DataFrame where
  cols : List String
  rows : List (List ℚ)
  deriving DecidableEq, Repr

/-- Number of rows (`len(df)` / first component of `df.shape`). -/
def DataFrame.nrows (df : DataFrame) : ℕ := df.rows.length

/-- Number of columns (second component of `df.shape`). -/
def DataFrame.ncols (df : DataFrame) : ℕ := df.cols.length

/-- `df.empty`: true when either axis has length zero. -/
def DataFrame.isEmpty (df : DataFrame) : Bool := df.nrows == 0 || df.ncols == 0

/-- The rendering of `df.shape` inside an f-string: `(nrows, ncols)`. -/
def DataFrame.shapeStr (df : DataFrame) : String :=
  "(" ++ toString df.nrows ++ ", " ++ toString df.ncols ++ ")"

/-- The values of the named column (empty when the column is absent). -/
def DataFrame.colValues (df : DataFrame) (name : String) : List ℚ :=
  match df.cols.indexOf? name with
  | none => []
  | some i => df.rows.filterMap (fun r => r[i]?)

/-- Python `str.strip()`: drop leading and trailing whitespace (written over
the character list so that it computes by plain reduction). -/
def pyStrip (s : String) : String :=
  ⟨((s.data.dropWhile Char.isWhitespace).reverse.dropWhile Char.isWhitespace).reverse⟩

/-- `DataValidator.validate_symbol`: non-empty after stripping, at most 10
characters, and only alphanumerics, dots, hyphens or carets. -/
def validateSymbol (symbol : String) : Bool :=
  if symbol == "" then false
  else
    let s := pyStrip symbol
    if s.length == 0 then false
    else if s.length > 10 then false
    else s.data.all (fun c => c.isAlphanum || c == '.' || c == '-' || c == '^')

/-- The per-DataFrame checks of `DataValidator.validate_options_data`'s loop
body: required columns present; empty frames fail only in strict mode;
non-positive strikes and negative last prices fail. -/
def optionsDfOk (df : DataFrame) (strict : Bool) : Bool :=
  let requiredColumns := ["Strike", "Last", "Volume", "OpenInterest"]
  if !(requiredColumns.all (fun c => df.cols.contains c)) then false
  else if df.isEmpty && strict then false
  else if !df.isEmpty && (df.colValues "Strike").any (fun v => decide (v ≤ 0)) then false
  else if !df.isEmpty && df.cols.contains "Last"
      && (df.colValues "Last").any (fun v => decide (v < 0)) then false
  else true

/-- `DataValidator.validate_options_data`: the loop over `[calls, puts]`
returns false at the first failing check, i.e. both frames must pass. -/
def validateOptionsData (calls puts : DataFrame) (strict : Bool) : Bool :=
  optionsDfOk calls strict && optionsDfOk puts strict

/-- The configuration fields consulted by the embedded orchestration code. -/
structure DataIngestionConfig where
  validateData : Bool
  allowPartialData : Bool
  defaultTtlSeconds : ℤ
  deriving Repr

/-- `OptionsFetcher._validate_data`: the tuple-arity check always passes on a
pair, then `validate_options_data` runs with `strict = not allow_partial_data`. -/
def optionsFetcherValidateData (cfg : DataIngestionConfig) (data : DataFrame × DataFrame) : Bool :=
  validateOptionsData data.1 data.2 (!cfg.allowPartialData)

/-- `EquityFetcher._build_cache_key`. -/
def equityBuildCacheKey (symbol startDate endDate interval : String) : String :=
  "equity:" ++ symbol ++ ":" ++ startDate ++ ":" ++ endDate ++ ":" ++ interval

/-- `OptionsFetcher._build_cache_key`: a falsy expiration (None or the empty
string) renders as `nearest`. -/
def optionsBuildCacheKey (symbol : String) (expiration : Option String) : String :=
  let expStr := if pyTruthy expiration then expiration.getD "" else "nearest"
  "options:" ++ symbol ++ ":" ++ expStr

/-- `FixedIncomeFetcher._build_cache_key`: maturities are sorted, then joined
with commas; falsy dates (None or empty) render as `default`. -/
def fixedIncomeBuildCacheKey (maturities : List String)
    (startDate endDate : Option String) : String :=
  let maturitiesStr := String.intercalate "," (maturities.mergeSort (fun a b => decide (a ≤ b)))
  let startStr := if pyTruthy startDate then startDate.getD "" else "default"
  let endStr := if pyTruthy endDate then endDate.getD "" else "default"
  "fixedincome:" ++ maturitiesStr ++ ":" ++ startStr ++ ":" ++ endStr

/-- `BaseFetcher._handle_fetch_error`: classify the raw error by lowercase
message inspection into not-found / rate-limit / server / generic fetch
errors, always raising the classified exception. -/
def handleFetchError (error : PyExc) : PyExc :=
  let errorMsg := String.toLower error.msg
  if pyIn "404" errorMsg || pyIn "not found" errorMsg || pyIn "no data found" errorMsg then
    .symbolNotFoundError ("Symbol not found: " ++ error.msg)
  else if pyIn "429" errorMsg || pyIn "rate limit" errorMsg
      || pyIn "too many requests" errorMsg then
    .rateLimitError ("Rate limit exceeded: " ++ error.msg)
  else if ["500", "502", "503", "504"].any (fun code => pyIn code errorMsg) then
    .fetchError ("Server error: " ++ error.msg)
  else
    .fetchError ("Failed to fetch data: " ++ error.msg)

/-- The `ValidationError` message built by `BaseFetcher.get_cached_or_fetch`
(column-name quoting of the Python list repr is abstracted; the shape
rendering is exact). -/
def validationFailureMsg (cacheKey : String) (data : DataFrame) : String :=
  "Data validation failed for " ++ cacheKey ++ ". Data shape: " ++ data.shapeStr
    ++ ", columns: " ++ toString data.cols

/-- `BaseFetcher.get_cached_or_fetch`.  Inputs are the subclass hooks and the
ambient world: the already-built cache key (`_build_cache_key`), the
subclass validator (`_validate_data`), the metadata (`_get_cache_metadata`),
the retry strategy with the stream of raw fetch outcomes, the cache state and
the current time.  The blocking `rate_limiter.throttle()` call acquires one
token and cannot fail (its argument is positive and no timeout is passed), so
it does not influence the result and is not threaded here.  Returns the
call's outcome and the cache state after the call. -/
def getCachedOrFetch (cfg : DataIngestionConfig) (r : ExponentialBackoffRetry)
    (useCache : Bool) (cacheKey cacheTable : String)
    (validator : DataFrame → Bool) (metadata : List (String × Option String))
    (attempts : ℕ → Except PyExc DataFrame)
    (s : CacheState DataFrame) (now : ℚ) :
    Except PyExc DataFrame × CacheState DataFrame :=
  let hit : Option DataFrame :=
    if useCache then
      match duckdbCacheGet s cacheKey cacheTable now with
      | .ok (some cachedData) => some cachedData
      | .ok none => none
      | .error _ => none
    else none
  match hit with
  | some cachedData => (.ok cachedData, s)
  | none =>
    match (r.execute attempts).1 with
    | .error e => (.error (handleFetchError e), s)
    | .ok data =>
      if cfg.validateData && !(validator data) then
        (.error (.validationError (validationFailureMsg cacheKey data)), s)
      else if useCache then
        match duckdbCacheSet s cacheKey data cacheTable cfg.defaultTtlSeconds metadata now with
        | .ok s1 => (.ok data, s1)
        | .error _ => (.ok data, s)
      else (.ok data, s)

/-- `OptionsFetcher.fetch_option_chain`: the manual replica of the
cache-or-fetch state machine for the `(calls, puts)` pair.  `lastExpiration`
models the `_last_expiration` attribute that `_fetch_impl` records for the
metadata.  The options TTL is the literal `1800` of the source. -/
def fetchOptionChain (cfg : DataIngestionConfig) (r : ExponentialBackoffRetry)
    (symbol : String) (expiration : Option String) (useCache : Bool)
    (attempts : ℕ → Except PyExc (DataFrame × DataFrame))
    (lastExpiration : Option String)
    (s : CacheState (DataFrame × DataFrame)) (now : ℚ) :
    Except PyExc (DataFrame × DataFrame) × CacheState (DataFrame × DataFrame) :=
  if !(validateSymbol symbol) then
    (.error (.validationError ("Invalid symbol: " ++ symbol)), s)
  else
    let cacheKey := optionsBuildCacheKey symbol expiration
    let hit : Option (DataFrame × DataFrame) :=
      if useCache then
        match duckdbCacheGet s cacheKey "options_cache" now with
        | .ok (some cachedData) => some cachedData
        | .ok none => none
        | .error _ => none
      else none
    match hit with
    | some cachedData => (.ok cachedData, s)
    | none =>
      match (r.execute attempts).1 with
      | .error e => (.error (handleFetchError e), s)
      | .ok data =>
        if cfg.validateData && !(optionsFetcherValidateData cfg data) then
          (.error (.validationError ("Options data validation failed for " ++ cacheKey)), s)
        else if useCache then
          match duckdbCacheSet s cacheKey data "options_cache" 1800
              [("symbol", some symbol), ("expiration", lastExpiration)] now with
          | .ok s1 => (.ok data, s1)
          | .error _ => (.ok data, s)
        else (.ok data, s)

theorem pyIn_sandwich (p a b : String) : pyIn p (a ++ p ++ b) = true := by
  unfold pyIn
  rw [String.data_append, String.data_append]
  simp only [decide_eq_true_eq]
  exact List.infix_append a.data p.data b.data

/-- Claim C3: for every validly constructed retry strategy,
`calculate_delay i = min(base_delay * exponential_base ^ i, max_delay)`; it is
non-decreasing in the attempt index and never exceeds `max_delay`; and with
`base_delay = 1`, `exponential_base = 2`, `max_delay = 60` the delays for
attempts 0..5 are 1, 2, 4, 8, 16, 32, while attempt 6 clamps to 60. -/
theorem spec_C3_calculateDelay (r : ExponentialBackoffRetry)
    (hBase : 0 < r.baseDelay) (hExp : 1 < r.exponentialBase) (hMax : 0 < r.maxDelay) :
    (∀ i, r.calculateDelay i = min (r.baseDelay * r.exponentialBase ^ i) r.maxDelay) ∧
    (∀ i j, i ≤ j → r.calculateDelay i ≤ r.calculateDelay j) ∧
    (∀ i, r.calculateDelay i ≤ r.maxDelay) ∧
    ((ExponentialBackoffRetry.mk 3 1 60 2).calculateDelay 0 = 1 ∧
     (ExponentialBackoffRetry.mk 3 1 60 2).calculateDelay 1 = 2 ∧
     (ExponentialBackoffRetry.mk 3 1 60 2).calculateDelay 2 = 4 ∧
     (ExponentialBackoffRetry.mk 3 1 60 2).calculateDelay 3 = 8 ∧
     (ExponentialBackoffRetry.mk 3 1 60 2).calculateDelay 4 = 16 ∧
     (ExponentialBackoffRetry.mk 3 1 60 2).calculateDelay 5 = 32 ∧
     (ExponentialBackoffRetry.mk 3 1 60 2).calculateDelay 6 = 60) := by
  refine ⟨fun i => rfl, ?_, fun i => min_le_right _ _, ?_⟩
  · intro i j hij
    unfold ExponentialBackoffRetry.calculateDelay
    have hpow : r.exponentialBase ^ i ≤ r.exponentialBase ^ j :=
      pow_le_pow_right₀ hExp.le hij
    exact min_le_min (mul_le_mul_of_nonneg_left hpow hBase.le) le_rfl
  · refine ⟨?_, ?_, ?_, ?_, ?_, ?_, ?_⟩ <;>
      · unfold ExponentialBackoffRetry.calculateDelay
        norm_num

/-- Witness for C3 at the configuration named in the claim. -/
theorem spec_C3_calculateDelay_witness :
    (ExponentialBackoffRetry.mk 3 1 60 2).calculateDelay 6 = 60 :=
  (spec_C3_calculateDelay (ExponentialBackoffRetry.mk 3 1 60 2)
    (by norm_num) (by norm_num) (by norm_num)).2.2.2.2.2.2.2.2.2

/-- Claim C4: `should_retry` is false on every `ValidationError` and every
`SymbolNotFoundError`, true on every `RateLimitError` and every plain
`FetchError`, and on any other exception it is true exactly when the
lowercased message contains one of the transient-network patterns. -/
theorem spec_C4_shouldRetry (r : ExponentialBackoffRetry) :
    (∀ m, r.shouldRetry (.validationError m) = false) ∧
    (∀ m, r.shouldRetry (.symbolNotFoundError m) = false) ∧
    (∀ m, r.shouldRetry (.rateLimitError m) = true) ∧
    (∀ m, r.shouldRetry (.fetchError m) = true) ∧
    (∀ m, r.shouldRetry (.generic m)
        = retryableErrorPatterns.any (fun p => pyIn p (String.toLower m))) ∧
    (∀ m, r.shouldRetry (.cacheError m)
        = retryableErrorPatterns.any (fun p => pyIn p (String.toLower m))) :=
  ⟨fun _ => rfl, fun _ => rfl, fun _ => rfl, fun _ => rfl, fun _ => rfl, fun _ => rfl⟩

theorem execGo_zero {α : Type} (r : ExponentialBackoffRetry)
    (attempts : ℕ → Except PyExc α) (i : ℕ) :
    r.execGo attempts i 0
      = match attempts i with
        | .ok v => (.ok v, i + 1)
        | .error e => (.error e, i + 1) := rfl

theorem execGo_succ {α : Type} (r : ExponentialBackoffRetry)
    (attempts : ℕ → Except PyExc α) (i rem : ℕ) :
    r.execGo attempts i (rem + 1)
      = match attempts i with
        | .ok v => (.ok v, i + 1)
        | .error e =>
          if r.shouldRetry e then r.execGo attempts (i + 1) rem
          else (.error e, i + 1) := rfl

theorem execGo_count_le {α : Type} (r : ExponentialBackoffRetry)
    (attempts : ℕ → Except PyExc α) :
    ∀ rem i, (r.execGo attempts i rem).2 ≤ i + rem + 1 := by
  intro rem
  induction rem with
  | zero =>
    intro i
    rw [execGo_zero]
    cases attempts i <;> simp
  | succ rem ih =>
    intro i
    rw [execGo_succ]
    cases attempts i with
    | ok v => simp
    | error e =>
      cases hr : r.shouldRetry e with
      | true =>
        simp only [hr, if_true]
        have := ih (i + 1)
        omega
      | false =>
        simp only [hr, Bool.false_eq_true, if_false]
        omega

theorem execGo_count_ge {α : Type} (r : ExponentialBackoffRetry)
    (attempts : ℕ → Except PyExc α) :
    ∀ rem i, i + 1 ≤ (r.execGo attempts i rem).2 := by
  intro rem
  induction rem with
  | zero =>
    intro i
    rw [execGo_zero]
    cases attempts i <;> simp
  | succ rem ih =>
    intro i
    rw [execGo_succ]
    cases attempts i with
    | ok v => simp
    | error e =>
      cases hr : r.shouldRetry e with
      | true =>
        simp only [hr, if_true]
        have := ih (i + 1)
        omega
      | false =>
        simp only [hr, Bool.false_eq_true, if_false]
        omega

theorem execGo_error_last {α : Type} (r : ExponentialBackoffRetry)
    (attempts : ℕ → Except PyExc α) :
    ∀ rem i e, (r.execGo attempts i rem).1 = .error e →
      attempts ((r.execGo attempts i rem).2 - 1) = .error e := by
  intro rem
  induction rem with
  | zero =>
    intro i e h
    rw [execGo_zero] at h ⊢
    cases ha : attempts i with
    | ok v => simp [ha] at h
    | error e1 =>
      simp only [ha, Except.error.injEq] at h
      simp only [ha, Nat.add_sub_cancel]
      rw [h]
  | succ rem ih =>
    intro i e h
    rw [execGo_succ] at h ⊢
    cases ha : attempts i with
    | ok v => simp [ha] at h
    | error e1 =>
      cases hr : r.shouldRetry e1 with
      | true =>
        simp only [ha, hr, if_true] at h ⊢
        exact ih (i + 1) e h
      | false =>
        simp only [ha, hr, Bool.false_eq_true, if_false, Except.error.injEq] at h ⊢
        simp only [Nat.add_sub_cancel]
        rw [ha, h]

theorem execGo_retried {α : Type} (r : ExponentialBackoffRetry)
    (attempts : ℕ → Except PyExc α) :
    ∀ rem i j, i ≤ j → j + 1 < (r.execGo attempts i rem).2 →
      ∃ e, attempts j = .error e ∧ r.shouldRetry e = true := by
  intro rem
  induction rem with
  | zero =>
    intro i j hij h
    rw [execGo_zero] at h
    cases ha : attempts i <;> simp [ha] at h <;> exact absurd h (by omega)
  | succ rem ih =>
    intro i j hij h
    rw [execGo_succ] at h
    cases ha : attempts i with
    | ok v =>
      simp [ha] at h
      exact absurd h (by omega)
    | error e1 =>
      cases hr : r.shouldRetry e1 with
      | true =>
        simp only [ha, hr, if_true] at h
        rcases Nat.eq_or_lt_of_le hij with heq | hlt
        · exact ⟨e1, heq ▸ ha, hr⟩
        · exact ih (i + 1) j hlt h
      | false =>
        simp only [ha, hr, Bool.false_eq_true, if_false] at h
        simp at h
        exact absurd h (by omega)

/-- Claim C5: `execute` performs at most `max_retries + 1` invocations of the
operation (and at least one); whatever error it propagates is exactly the
exception of the last invocation performed (no wrapping); and every
invocation before the last failed with a retryable error. -/
theorem spec_C5_execute (α : Type) (r : ExponentialBackoffRetry)
    (attempts : ℕ → Except PyExc α) :
    (r.execute attempts).2 ≤ r.maxRetries + 1 ∧
    1 ≤ (r.execute attempts).2 ∧
    (∀ e, (r.execute attempts).1 = .error e →
        attempts ((r.execute attempts).2 - 1) = .error e) ∧
    (∀ j, j + 1 < (r.execute attempts).2 →
        ∃ e, attempts j = .error e ∧ r.shouldRetry e = true) := by
  refine ⟨?_, ?_, ?_, ?_⟩
  · simpa using execGo_count_le r attempts r.maxRetries 0
  · simpa using execGo_count_ge r attempts r.maxRetries 0
  · exact fun e h => execGo_error_last r attempts r.maxRetries 0 e h
  · exact fun j h => execGo_retried r attempts r.maxRetries 0 j (Nat.zero_le j) h

/-- Witness for C5: with `max_retries = 2` and an operation failing every time
with a plain `FetchError`, `execute` re-raises exactly that exception, and the
invocation count is within bound. -/
theorem spec_C5_execute_witness :
    (fun _ : ℕ => (Except.error (PyExc.fetchError "boom") : Except PyExc Unit))
        (((ExponentialBackoffRetry.mk 2 1 60 2).execute
          (fun _ : ℕ => (Except.error (PyExc.fetchError "boom") : Except PyExc Unit))).2 - 1)
      = Except.error (PyExc.fetchError "boom") ∧
    ((ExponentialBackoffRetry.mk 2 1 60 2).execute
        (fun _ : ℕ => (Except.error (PyExc.fetchError "boom") : Except PyExc Unit))).2 ≤ 3 :=
  ⟨(spec_C5_execute Unit (ExponentialBackoffRetry.mk 2 1 60 2)
      (fun _ : ℕ => (Except.error (PyExc.fetchError "boom") : Except PyExc Unit))).2.2.1
      (PyExc.fetchError "boom") rfl,
   (spec_C5_execute Unit (ExponentialBackoffRetry.mk 2 1 60 2)
      (fun _ : ℕ => (Except.error (PyExc.fetchError "boom") : Except PyExc Unit))).1⟩

theorem acquireAllOk_zero (st : TokenBucketLimiter) (now : ℚ) :
    TokenBucketLimiter.acquireAllOk st now 0 = some st := rfl

theorem acquireAllOk_succ (st : TokenBucketLimiter) (now : ℚ) (n : ℕ) :
    TokenBucketLimiter.acquireAllOk st now (n + 1)
      = match st.acquireNonBlocking 1 now with
        | .ok (true, st1) => TokenBucketLimiter.acquireAllOk st1 now n
        | _ => none := rfl

theorem refillTokens_noElapse (tps cap t t0 : ℚ) (h : t ≤ cap) :
    TokenBucketLimiter.refillTokens ⟨tps, cap, t, t0⟩ t0 = ⟨tps, cap, t, t0⟩ := by
  simp [TokenBucketLimiter.refillTokens, min_eq_right h]

theorem acquireOne_success (tps cap t t0 : ℚ) (hcap : t ≤ cap) (h1 : 1 ≤ t) :
    TokenBucketLimiter.acquireNonBlocking ⟨tps, cap, t, t0⟩ 1 t0
      = .ok (true, ⟨tps, cap, t - 1, t0⟩) := by
  unfold TokenBucketLimiter.acquireNonBlocking
  rw [if_neg (by norm_num), refillTokens_noElapse tps cap t t0 hcap]
  norm_num [h1]

theorem acquireOne_failure (tps cap t t0 : ℚ) (hcap : t ≤ cap) (h1 : t < 1) :
    TokenBucketLimiter.acquireNonBlocking ⟨tps, cap, t, t0⟩ 1 t0
      = .ok (false, ⟨tps, cap, t, t0⟩) := by
  unfold TokenBucketLimiter.acquireNonBlocking
  rw [if_neg (by norm_num), refillTokens_noElapse tps cap t t0 hcap]
  norm_num [not_le.mpr h1]

theorem acquireAllOk_drain (tps cap t0 : ℚ) :
    ∀ (m : ℕ) (t : ℚ), (m : ℚ) ≤ t → t ≤ cap →
      TokenBucketLimiter.acquireAllOk ⟨tps, cap, t, t0⟩ t0 m
        = some ⟨tps, cap, t - (m : ℚ), t0⟩ := by
  intro m
  induction m with
  | zero => intro t h1 h2; simp [acquireAllOk_zero]
  | succ m ih =>
    intro t h1 h2
    have hm1 : ((m + 1 : ℕ) : ℚ) = (m : ℚ) + 1 := by push_cast; ring
    have hge1 : 1 ≤ t := by
      have hm0 : (0 : ℚ) ≤ (m : ℚ) := Nat.cast_nonneg m
      rw [hm1] at h1; linarith
    rw [acquireAllOk_succ, acquireOne_success tps cap t t0 h2 hge1]
    dsimp only
    rw [ih (t - 1) (by rw [hm1] at h1; linarith) (by linarith), hm1]
    have harith : t - 1 - (m : ℚ) = t - ((m : ℚ) + 1) := by ring
    rw [harith]

/-- Claim C6: a non-blocking `acquire(k)` first refills, then succeeds and
debits exactly `k` when the refilled balance covers `k`, and otherwise fails
immediately leaving the balance at its refilled value; starting from a full
bucket with no time elapsing, `bucket_size` non-blocking `acquire(1)` calls
all succeed, the next one fails, and after `1/tokens_per_second` further
seconds exactly one more acquisition succeeds. -/
theorem spec_C6_acquireNonBlocking :
    (∀ (st : TokenBucketLimiter) (k : ℤ) (now : ℚ), 0 < k →
       ((k : ℚ) ≤ (st.refillTokens now).tokens →
          st.acquireNonBlocking k now
            = .ok (true, { st.refillTokens now with
                tokens := (st.refillTokens now).tokens - (k : ℚ) })) ∧
       ((st.refillTokens now).tokens < (k : ℚ) →
          st.acquireNonBlocking k now = .ok (false, st.refillTokens now))) ∧
    (∀ (tps : ℚ) (n : ℕ) (t0 : ℚ), 0 < tps → 1 ≤ n →
       mkTokenBucketLimiter tps (n : ℤ) t0 = .ok ⟨tps, (n : ℚ), (n : ℚ), t0⟩ ∧
       TokenBucketLimiter.acquireAllOk ⟨tps, (n : ℚ), (n : ℚ), t0⟩ t0 n
           = some ⟨tps, (n : ℚ), 0, t0⟩ ∧
       TokenBucketLimiter.acquireNonBlocking ⟨tps, (n : ℚ), 0, t0⟩ 1 t0
           = .ok (false, ⟨tps, (n : ℚ), 0, t0⟩) ∧
       TokenBucketLimiter.acquireNonBlocking ⟨tps, (n : ℚ), 0, t0⟩ 1 (t0 + 1 / tps)
           = .ok (true, ⟨tps, (n : ℚ), 0, t0 + 1 / tps⟩) ∧
       TokenBucketLimiter.acquireNonBlocking ⟨tps, (n : ℚ), 0, t0 + 1 / tps⟩ 1 (t0 + 1 / tps)
           = .ok (false, ⟨tps, (n : ℚ), 0, t0 + 1 / tps⟩)) := by
  constructor
  · intro st k now hk
    constructor
    · intro hle
      unfold TokenBucketLimiter.acquireNonBlocking
      rw [if_neg (not_le.mpr hk), if_pos hle]
    · intro hlt
      unfold TokenBucketLimiter.acquireNonBlocking
      rw [if_neg (not_le.mpr hk), if_neg (not_le.mpr hlt)]
  · intro tps n t0 htps hn
    have hn0 : (0 : ℚ) ≤ (n : ℚ) := Nat.cast_nonneg n
    have hn1 : (1 : ℚ) ≤ (n : ℚ) := by exact_mod_cast hn
    refine ⟨?_, ?_, ?_, ?_, ?_⟩
    · unfold mkTokenBucketLimiter
      rw [if_neg (not_le.mpr htps), if_neg (by exact_mod_cast not_le.mpr (by omega : (0:ℤ) < (n:ℤ)))]
      norm_num
    · rw [acquireAllOk_drain tps (n : ℚ) t0 n (n : ℚ) le_rfl le_rfl]
      norm_num
    · exact acquireOne_failure tps (n : ℚ) 0 t0 hn0 (by norm_num)
    · unfold TokenBucketLimiter.acquireNonBlocking
      rw [if_neg (by norm_num)]
      have hrefill : TokenBucketLimiter.refillTokens ⟨tps, (n : ℚ), 0, t0⟩ (t0 + 1 / tps)
          = ⟨tps, (n : ℚ), 1, t0 + 1 / tps⟩ := by
        unfold TokenBucketLimiter.refillTokens
        have h1 : (t0 + 1 / tps - t0) * tps = 1 := by
          field_simp
          ring
        simp only [h1]
        norm_num [min_eq_right hn1]
      rw [hrefill]
      norm_num
    · exact acquireOne_failure tps (n : ℚ) 0 (t0 + 1 / tps) hn0 (by norm_num)

/-- Witness for C6 at `tokens_per_second = 2`, `bucket_size = 3`, start time 0:
three acquisitions drain the bucket and the fourth fails. -/
theorem spec_C6_acquireNonBlocking_witness :
    TokenBucketLimiter.acquireAllOk ⟨2, ((3 : ℕ) : ℚ), ((3 : ℕ) : ℚ), 0⟩ 0 3
        = some ⟨2, ((3 : ℕ) : ℚ), 0, 0⟩ ∧
    TokenBucketLimiter.acquireNonBlocking ⟨2, ((3 : ℕ) : ℚ), 0, 0⟩ 1 0
        = .ok (false, ⟨2, ((3 : ℕ) : ℚ), 0, 0⟩) :=
  ⟨(spec_C6_acquireNonBlocking.2 2 3 0 (by norm_num) (by norm_num)).2.1,
   (spec_C6_acquireNonBlocking.2 2 3 0 (by norm_num) (by norm_num)).2.2.1⟩

/-- The RateBudget invariant: the token count stays within `[0, bucket_size]`. -/
def LimiterInv (st : TokenBucketLimiter) : Prop :=
  0 ≤ st.tokens ∧ st.tokens ≤ st.bucketSize

/-- Claim C7: the invariant `0 <= tokens <= bucket_size` holds at construction
and is preserved by every operation: refill (with non-negative elapsed time
and a positive rate), a non-blocking acquire (which only debits when covered),
reset, and `get_available_tokens`. -/
theorem spec_C7_limiterInvariant :
    (∀ (tps : ℚ) (bs : ℤ) (now : ℚ) (st : TokenBucketLimiter),
       mkTokenBucketLimiter tps bs now = .ok st → LimiterInv st) ∧
    (∀ (st : TokenBucketLimiter) (now : ℚ), 0 < st.tokensPerSecond →
       st.lastUpdate ≤ now → LimiterInv st → LimiterInv (st.refillTokens now)) ∧
    (∀ (st : TokenBucketLimiter) (k : ℤ) (now : ℚ) (b : Bool) (st2 : TokenBucketLimiter),
       0 < st.tokensPerSecond → st.lastUpdate ≤ now → LimiterInv st →
       st.acquireNonBlocking k now = .ok (b, st2) → LimiterInv st2) ∧
    (∀ (st : TokenBucketLimiter) (now : ℚ), 0 ≤ st.bucketSize →
       LimiterInv (st.reset now)) ∧
    (∀ (st : TokenBucketLimiter) (now : ℚ), 0 < st.tokensPerSecond →
       st.lastUpdate ≤ now → LimiterInv st →
       LimiterInv (st.getAvailableTokens now).2) := by
  have hrefill : ∀ (st : TokenBucketLimiter) (now : ℚ), 0 < st.tokensPerSecond →
      st.lastUpdate ≤ now → LimiterInv st → LimiterInv (st.refillTokens now) := by
    intro st now htps hnow hinv
    obtain ⟨h0, hcap⟩ := hinv
    constructor
    · refine le_min (le_trans h0 hcap) ?_
      have : 0 ≤ (now - st.lastUpdate) * st.tokensPerSecond :=
        mul_nonneg (by linarith) htps.le
      linarith
    · exact min_le_left _ _
  refine ⟨?_, hrefill, ?_, ?_, ?_⟩
  · intro tps bs now st h
    unfold mkTokenBucketLimiter at h
    by_cases h1 : tps ≤ 0
    · rw [if_pos h1] at h; exact absurd h (by simp)
    · rw [if_neg h1] at h
      by_cases h2 : bs ≤ 0
      · rw [if_pos h2] at h; exact absurd h (by simp)
      · rw [if_neg h2] at h
        simp only [Except.ok.injEq] at h
        subst h
        push_neg at h2
        constructor
        · show (0 : ℚ) ≤ ((bs : ℤ) : ℚ)
          exact_mod_cast (by omega : (0 : ℤ) ≤ bs)
        · exact le_rfl
  · intro st k now b st2 htps hnow hinv hacq
    unfold TokenBucketLimiter.acquireNonBlocking at hacq
    by_cases hk : k ≤ 0
    · rw [if_pos hk] at hacq; exact absurd hacq (by simp)
    · rw [if_neg hk] at hacq
      push_neg at hk
      have hinv1 := hrefill st now htps hnow hinv
      obtain ⟨h0, hcap⟩ := hinv1
      by_cases hcover : (k : ℚ) ≤ (st.refillTokens now).tokens
      · rw [if_pos hcover] at hacq
        simp only [Except.ok.injEq, Prod.mk.injEq] at hacq
        rw [← hacq.2]
        have hkpos : (0 : ℚ) < (k : ℚ) := by exact_mod_cast hk
        refine ⟨?_, ?_⟩
        · show 0 ≤ (st.refillTokens now).tokens - (k : ℚ)
          linarith
        · show (st.refillTokens now).tokens - (k : ℚ) ≤ (st.refillTokens now).bucketSize
          linarith
      · rw [if_neg hcover] at hacq
        simp only [Except.ok.injEq, Prod.mk.injEq] at hacq
        rw [← hacq.2]
        exact ⟨h0, hcap⟩
  · intro st now hbs
    exact ⟨hbs, le_rfl⟩
  · intro st now htps hnow hinv
    exact hrefill st now htps hnow hinv

/-- Witness for C7: the invariant holds after refilling a half-drained
concrete limiter. -/
theorem spec_C7_limiterInvariant_witness :
    LimiterInv (TokenBucketLimiter.refillTokens ⟨2, 10, 5, 0⟩ 1) :=
  spec_C7_limiterInvariant.2.1 ⟨2, 10, 5, 0⟩ 1 (by norm_num) (by norm_num)
    ⟨by norm_num, by norm_num⟩

/-- Store wellformedness: at most one live entry per `(table, cache_key)`
pair (the tables' PRIMARY KEY constraint). -/
def CacheWF {α : Type} (s : CacheState α) : Prop :=
  s.Pairwise (fun e1 e2 => ¬(e1.table = e2.table ∧ e1.cacheKey = e2.cacheKey))

theorem cacheWF_unique {α : Type} :
    ∀ (s : CacheState α), CacheWF s →
      ∀ e1 ∈ s, ∀ e2 ∈ s, e1.table = e2.table → e1.cacheKey = e2.cacheKey →
        e1 = e2 := by
  intro s
  induction s with
  | nil => intro _ e1 h1; cases h1
  | cons x tl ih =>
    intro hwf e1 h1 e2 h2 ht hk
    cases hwf with
    | cons hx htl =>
      rcases List.mem_cons.mp h1 with rfl | h1tl
      · rcases List.mem_cons.mp h2 with rfl | h2tl
        · rfl
        · exact absurd ⟨ht, hk⟩ (hx e2 h2tl)
      · rcases List.mem_cons.mp h2 with rfl | h2tl
        · exact ((hx e1 h1tl) ⟨ht.symm, hk.symm⟩).elim
        · exact ih htl e1 h1tl e2 h2tl ht hk

/-- Claim C2: for a known table and a wellformed store, `get` returns the
stored payload exactly when a matching entry has `expires_at > now` (an
expired entry behaves as a miss and stays in the store); and a `set` with
`ttl_seconds = T > 0` followed by an immediate `get` returns the value, while
after time reaches `now + T` the same `get` returns absent with the entry
still present (no implicit deletion). -/
theorem spec_C2_cacheGetTtl :
    (∀ (α : Type) (s : CacheState α) (k t : String) (now : ℚ) (v : α),
       knownCacheTables.contains t = true → CacheWF s →
       (duckdbCacheGet s k t now = .ok (some v) ↔
         ∃ e ∈ s, e.table = t ∧ e.cacheKey = k ∧ now < e.expiresAt ∧ e.payload = v)) ∧
    (∀ (α : Type) (s : CacheState α) (k t : String) (v : α)
       (meta : List (String × Option String)) (now : ℚ) (T : ℤ) (s1 : CacheState α),
       knownCacheTables.contains t = true → 0 < T →
       duckdbCacheSet s k v t T meta now = .ok s1 →
       duckdbCacheGet s1 k t now = .ok (some v) ∧
       (∀ now2 : ℚ, now + (T : ℚ) ≤ now2 →
          duckdbCacheGet s1 k t now2 = .ok none ∧
          ∃ e ∈ s1, e.table = t ∧ e.cacheKey = k)) := by
  constructor
  · intro α s k t now v hknown hwf
    unfold duckdbCacheGet
    rw [if_neg (not_not_intro hknown)]
    simp only [Except.ok.injEq, Option.map_eq_some']
    constructor
    · rintro ⟨e, hfind, hpay⟩
      have hmem := List.mem_of_find?_eq_some hfind
      have hp := List.find?_some hfind
      rw [decide_eq_true_eq] at hp
      exact ⟨e, hmem, hp.1, hp.2.1, hp.2.2, hpay⟩
    · rintro ⟨e, hmem, ht, hk, hexp, hpay⟩
      have hsome : (s.find? (fun e =>
          decide (e.table = t ∧ e.cacheKey = k ∧ now < e.expiresAt))).isSome := by
        rw [List.find?_isSome]
        exact ⟨e, hmem, by rw [decide_eq_true_eq]; exact ⟨ht, hk, hexp⟩⟩
      obtain ⟨e2, hfind⟩ := Option.isSome_iff_exists.mp hsome
      have hmem2 := List.mem_of_find?_eq_some hfind
      have hp2 := List.find?_some hfind
      rw [decide_eq_true_eq] at hp2
      have heq : e = e2 := cacheWF_unique s hwf e hmem e2 hmem2
        (ht.trans hp2.1.symm) (hk.trans hp2.2.1.symm)
      exact ⟨e2, hfind, by rw [← heq]; exact hpay⟩
  · intro α s k t v meta now T s1 hknown hT hset
    unfold duckdbCacheSet at hset
    rw [if_neg (not_not_intro hknown)] at hset
    simp only [Except.ok.injEq] at hset
    subst hset
    have hTQ : (0 : ℚ) < (T : ℚ) := by exact_mod_cast hT
    constructor
    · unfold duckdbCacheGet
      rw [if_neg (not_not_intro hknown)]
      rw [List.find?_cons_of_pos _ (by
        rw [decide_eq_true_eq]
        exact ⟨rfl, rfl, show now < now + (T : ℚ) by linarith⟩)]
      rfl
    · intro now2 hnow2
      constructor
      · unfold duckdbCacheGet
        rw [if_neg (not_not_intro hknown)]
        rw [List.find?_cons_of_neg _ (by
          simp only [decide_eq_true_eq, not_and, not_lt]
          intro _ _
          show ({ cacheKey := k, table := t, meta := buildCacheMeta t meta, payload := v,
                  createdAt := now, expiresAt := now + (T : ℚ) } : CacheEntry α).expiresAt ≤ now2
          show now + (T : ℚ) ≤ now2
          linarith)]
        have hnone : List.find?
            (fun e => decide (e.table = t ∧ e.cacheKey = k ∧ now2 < e.expiresAt))
            (s.filter (fun e => !(decide (e.table = t ∧ e.cacheKey = k)))) = none := by
          rw [List.find?_eq_none]
          intro e he
          have hfilt := (List.mem_filter.mp he).2
          rw [Bool.not_eq_eq_eq_not, Bool.not_true, decide_eq_false_iff_not] at hfilt
          rw [decide_eq_true_eq]
          rintro ⟨h1, h2, -⟩
          exact hfilt ⟨h1, h2⟩
        rw [hnone]
        rfl
      · refine ⟨_, List.mem_cons_self _ _, rfl, rfl⟩

/-- Witness for C2: on an empty store over `Unit` payloads, a `set` into
`equity_cache` with TTL 3600 at time 0 is returned by a `get` at time 0 and
missed by a `get` at time 3600. -/
theorem spec_C2_cacheGetTtl_witness :
    duckdbCacheGet
        [(⟨"k1", "equity_cache", buildCacheMeta "equity_cache" [], (), 0,
            0 + ((3600 : ℤ) : ℚ)⟩ : CacheEntry Unit)] "k1" "equity_cache" 0
      = .ok (some ()) ∧
    duckdbCacheGet
        [(⟨"k1", "equity_cache", buildCacheMeta "equity_cache" [], (), 0,
            0 + ((3600 : ℤ) : ℚ)⟩ : CacheEntry Unit)] "k1" "equity_cache" 3600
      = .ok none := by
  have h := spec_C2_cacheGetTtl.2 Unit [] "k1" "equity_cache" () [] 0 3600
    [(⟨"k1", "equity_cache", buildCacheMeta "equity_cache" [], (), 0,
        0 + ((3600 : ℤ) : ℚ)⟩ : CacheEntry Unit)]
    (by decide) (by decide) rfl
  exact ⟨h.1, (h.2 3600 (by norm_num)).1⟩

/-- Counterexample for C8: passing the unknown table name `bogus` to
`Cache.get` is NOT a hard error — even with a matching, unexpired entry
present under that table name, `get` returns success-with-absent
(an ordinary miss), contradicting the claim that every cache operation
including `get` hard-errors on an unknown table. -/
theorem spec_C8_counterexample :
    duckdbCacheGet [(⟨"k", "bogus", [], (), 0, 10⟩ : CacheEntry Unit)] "k" "bogus" 5
        = .ok none ∧
    ∀ m : String,
      duckdbCacheGet [(⟨"k", "bogus", [], (), 0, 10⟩ : CacheEntry Unit)] "k" "bogus" 5
        ≠ .error (.cacheError m) := by
  constructor
  · rfl
  · intro m h
    exact Except.noConfusion ((rfl :
      duckdbCacheGet [(⟨"k", "bogus", [], (), 0, 10⟩ : CacheEntry Unit)] "k" "bogus" 5
        = Except.ok none).symm.trans h)

/-- Claim C8 (amended): `set` with an unknown table name fails with a
cache-kind error and stores nothing, while `get` with an unknown table name
logs a warning and behaves as an ordinary miss (returns absent) rather than
raising. -/
theorem spec_C8_unknownTable (table : String)
    (h : knownCacheTables.contains table = false) :
    (∀ (α : Type) (s : CacheState α) (k : String) (v : α) (T : ℤ)
       (meta : List (String × Option String)) (now : ℚ),
       duckdbCacheSet s k v table T meta now
         = .error (.cacheError ("Failed to write to cache: Unknown cache table: " ++ table))) ∧
    (∀ (α : Type) (s : CacheState α) (k : String) (now : ℚ),
       duckdbCacheGet s k table now = .ok none) := by
  have hnm : ¬ (knownCacheTables.contains table = true) := by
    rw [h]; exact Bool.false_ne_true
  constructor
  · intro α s k v T meta now
    unfold duckdbCacheSet
    rw [if_pos hnm]
  · intro α s k now
    unfold duckdbCacheGet
    rw [if_pos hnm]

/-- Witness for C8's amended claim at the table name `bogus`. -/
theorem spec_C8_unknownTable_witness :
    duckdbCacheSet ([] : CacheState Unit) "k" () "bogus" 60 [] 0
        = .error (.cacheError "Failed to write to cache: Unknown cache table: bogus") ∧
    duckdbCacheGet ([] : CacheState Unit) "k" "bogus" 0 = .ok none := by
  have h := spec_C8_unknownTable "bogus" (by decide)
  exact ⟨h.1 Unit [] "k" () 60 [] 0, h.2 Unit [] "k" 0⟩

/-- Claim C10: calling `invalidate` with a (truthy) `cache_key` but no
`table` falls through to the delete-everything branch: it succeeds and the
resulting store retains only entries whose table is not a known cache table —
every entry of every known table is removed, not just the keyed one. -/
theorem spec_C10_invalidateKeyNoTable {α : Type} (s : CacheState α) (k : String)
    (hk : k ≠ "") :
    duckdbCacheInvalidate s (some k) none
        = .ok (s.filter (fun e => !(knownCacheTables.contains e.table))) ∧
    ∀ e ∈ s.filter (fun e => !(knownCacheTables.contains e.table)),
      knownCacheTables.contains e.table = false := by
  constructor
  · unfold duckdbCacheInvalidate
    rw [if_neg (by simp [pyTruthy])]
    rw [if_neg (by simp [pyTruthy])]
  · intro e he
    have hfilt := (List.mem_filter.mp he).2
    rwa [Bool.not_eq_eq_eq_not, Bool.not_true] at hfilt

/-- Witness for C10: an entry in `equity_cache` whose key differs from the
requested one is nevertheless deleted. -/
theorem spec_C10_invalidateKeyNoTable_witness :
    duckdbCacheInvalidate [(⟨"other", "equity_cache", [], (), 0, 10⟩ : CacheEntry Unit)]
        (some "k") none = .ok [] := by
  have h := (spec_C10_invalidateKeyNoTable
    [(⟨"other", "equity_cache", [], (), 0, 10⟩ : CacheEntry Unit)] "k" (by decide)).1
  simpa using h

theorem mergeSortStr_perm_eq {m1 m2 : List String} (hp : m1.Perm m2) :
    m1.mergeSort (fun a b => decide (a ≤ b)) = m2.mergeSort (fun a b => decide (a ≤ b)) := by
  have htrans : ∀ (a b c : String), decide (a ≤ b) = true → decide (b ≤ c) = true →
      decide (a ≤ c) = true := by
    intro a b c hab hbc
    rw [decide_eq_true_eq] at hab hbc ⊢
    exact le_trans hab hbc
  have htotal : ∀ (a b : String), (decide (a ≤ b) || decide (b ≤ a)) = true := by
    intro a b
    rcases le_total a b with h | h
    · simp [h]
    · simp [h]
  have hsorted1 : List.Sorted (· ≤ ·) (m1.mergeSort (fun a b => decide (a ≤ b))) :=
    (List.sorted_mergeSort htrans htotal m1).imp (fun h => of_decide_eq_true h)
  have hsorted2 : List.Sorted (· ≤ ·) (m2.mergeSort (fun a b => decide (a ≤ b))) :=
    (List.sorted_mergeSort htrans htotal m2).imp (fun h => of_decide_eq_true h)
  have hperm : (m1.mergeSort (fun a b => decide (a ≤ b))).Perm
      (m2.mergeSort (fun a b => decide (a ≤ b))) :=
    (List.mergeSort_perm m1 _).trans (hp.trans (List.mergeSort_perm m2 _).symm)
  exact List.eq_of_perm_of_sorted hperm hsorted1 hsorted2

/-- Claim C9: the cache-key builders are deterministic pure functions of the
request parameters — equal parameter sets give the identical key string — and
the fixed-income builder normalizes the maturities list by sorting, so any
two permutations of the same maturities yield the same cache key. -/
theorem spec_C9_buildCacheKey :
    (∀ symbol1 symbol2 sd1 sd2 ed1 ed2 iv1 iv2 : String,
       symbol1 = symbol2 → sd1 = sd2 → ed1 = ed2 → iv1 = iv2 →
       equityBuildCacheKey symbol1 sd1 ed1 iv1 = equityBuildCacheKey symbol2 sd2 ed2 iv2) ∧
    (∀ (m1 m2 : List String) (sd ed : Option String),
       m1.Perm m2 →
       fixedIncomeBuildCacheKey m1 sd ed = fixedIncomeBuildCacheKey m2 sd ed) := by
  constructor
  · intro symbol1 symbol2 sd1 sd2 ed1 ed2 iv1 iv2 h1 h2 h3 h4
    rw [h1, h2, h3, h4]
  · intro m1 m2 sd ed hp
    unfold fixedIncomeBuildCacheKey
    rw [mergeSortStr_perm_eq hp]

/-- Witness for C9: the maturities lists `[30Y, 10Y]` and `[10Y, 30Y]` give
the same fixed-income cache key. -/
theorem spec_C9_buildCacheKey_witness :
    fixedIncomeBuildCacheKey ["30Y", "10Y"] (some "2023-01-01") (some "2023-12-31")
      = fixedIncomeBuildCacheKey ["10Y", "30Y"] (some "2023-01-01") (some "2023-12-31") :=
  spec_C9_buildCacheKey.2 ["30Y", "10Y"] ["10Y", "30Y"]
    (some "2023-01-01") (some "2023-12-31") (by decide)

/-- Counterexample for C1: in the options replica `fetch_option_chain`, a
fetch returning empty option frames (shape `(0, 4)`) under strict validation
raises a `ValidationError` whose message is
`Options data validation failed for <cache key>` — it contains no digit at
all, hence not the failing shape's row/column counts, contradicting the
claim that the replica's error includes the failing shape. -/
theorem spec_C1_counterexample :
    (fetchOptionChain ⟨true, false, 3600⟩ ⟨3, 1, 60, 2⟩ "AAPL" none true
        (fun _ => .ok (⟨["Strike", "Last", "Volume", "OpenInterest"], []⟩,
                       ⟨["Strike", "Last", "Volume", "OpenInterest"], []⟩))
        none [] 0).1
      = .error (.validationError "Options data validation failed for options:AAPL:nearest")
    ∧ List.all ("Options data validation failed for options:AAPL:nearest").data
        (fun c => !c.isDigit) = true :=
  ⟨rfl, by decide⟩

/-- Claim C1 (amended): with validation enabled, a fetched result that fails
the validator makes `get_cached_or_fetch` raise a `ValidationError` whose
message includes the failing shape (row/column counts), and makes the options
replica `fetch_option_chain` raise a `ValidationError` whose message includes
the cache key (but not the shape); in both paths no cache write happens for
that key — the cache state is returned unchanged — so a later `get` for that
key is not a hit caused by that fetch, and the invalid data is never returned
as success. -/
theorem spec_C1_validationNoCache :
    (∀ (cfg : DataIngestionConfig) (r : ExponentialBackoffRetry) (useCache : Bool)
       (cacheKey cacheTable : String) (validator : DataFrame → Bool)
       (metadata : List (String × Option String))
       (attempts : ℕ → Except PyExc DataFrame) (s : CacheState DataFrame)
       (now : ℚ) (data : DataFrame),
       cfg.validateData = true →
       validator data = false →
       (r.execute attempts).1 = .ok data →
       (useCache = true → duckdbCacheGet s cacheKey cacheTable now = .ok none) →
       getCachedOrFetch cfg r useCache cacheKey cacheTable validator metadata attempts s now
         = (.error (.validationError (validationFailureMsg cacheKey data)), s) ∧
       pyIn data.shapeStr (validationFailureMsg cacheKey data) = true) ∧
    (∀ (cfg : DataIngestionConfig) (r : ExponentialBackoffRetry) (symbol : String)
       (expiration : Option String) (useCache : Bool)
       (attempts : ℕ → Except PyExc (DataFrame × DataFrame))
       (lastExpiration : Option String) (s : CacheState (DataFrame × DataFrame))
       (now : ℚ) (data : DataFrame × DataFrame),
       cfg.validateData = true →
       validateSymbol symbol = true →
       optionsFetcherValidateData cfg data = false →
       (r.execute attempts).1 = .ok data →
       (useCache = true →
         duckdbCacheGet s (optionsBuildCacheKey symbol expiration) "options_cache" now
           = .ok none) →
       fetchOptionChain cfg r symbol expiration useCache attempts lastExpiration s now
         = (.error (.validationError ("Options data validation failed for "
             ++ optionsBuildCacheKey symbol expiration)), s) ∧
       pyIn (optionsBuildCacheKey symbol expiration)
           ("Options data validation failed for " ++ optionsBuildCacheKey symbol expiration)
         = true) := by
  constructor
  · intro cfg r useCache cacheKey cacheTable validator metadata attempts s now data
      hval hbad hfetch hmiss
    constructor
    · cases useCache with
      | true => simp [getCachedOrFetch, hmiss rfl, hfetch, hval, hbad]
      | false => simp [getCachedOrFetch, hfetch, hval, hbad]
    · have hmsg : validationFailureMsg cacheKey data
          = ("Data validation failed for " ++ cacheKey ++ ". Data shape: ")
            ++ data.shapeStr ++ (", columns: " ++ toString data.cols) := by
        unfold validationFailureMsg
        simp [String.append_assoc]
      rw [hmsg]
      exact pyIn_sandwich data.shapeStr _ _
  · intro cfg r symbol expiration useCache attempts lastExpiration s now data
      hval hsym hbad hfetch hmiss
    constructor
    · cases useCache with
      | true => simp [fetchOptionChain, hsym, hmiss rfl, hfetch, hval, hbad]
      | false => simp [fetchOptionChain, hsym, hfetch, hval, hbad]
    · rw [show "Options data validation failed for " ++ optionsBuildCacheKey symbol expiration
          = "Options data validation failed for " ++ optionsBuildCacheKey symbol expiration ++ ""
        from (String.append_empty _).symm]
      exact pyIn_sandwich (optionsBuildCacheKey symbol expiration) _ _

/-- Witness for C1's amended claim: a one-column, zero-row equity frame
rejected by the validator yields the shape-carrying `ValidationError` and
leaves the empty cache state unchanged. -/
theorem spec_C1_validationNoCache_witness :
    getCachedOrFetch ⟨true, false, 3600⟩ ⟨3, 1, 60, 2⟩ true "ek" "equity_cache"
        (fun _ => false) [] (fun _ => .ok ⟨["Open"], []⟩) [] 0
      = (.error (.validationError (validationFailureMsg "ek" ⟨["Open"], []⟩)), []) ∧
    pyIn (DataFrame.shapeStr ⟨["Open"], []⟩) (validationFailureMsg "ek" ⟨["Open"], []⟩)
      = true :=
  (spec_C1_validationNoCache.1 ⟨true, false, 3600⟩ ⟨3, 1, 60, 2⟩ true "ek" "equity_cache"
    (fun _ => false) [] (fun _ => .ok ⟨["Open"], []⟩) [] 0 ⟨["Open"], []⟩
    rfl rfl rfl (fun _ => rfl))
